import Mathlib

/-!
Shallow embedding of the mpesa-connect notification delivery subsystem.

Embedded source files:
* src/services/webhook-service.js : sendWebhook, createWebhook,
  retryFailedWebhooks (the Delivery Engine and Retry Scheduler);
* src/models/webhook.js : the webhook schema, in particular its declared
  status enumeration;
* src/api/v1/stk/handlers.js : stkCallback (the Inbound Callback Adapter)
  and the status mapping of checkStkStatus;
* src/api/v1/auth/handlers.js : forgotPassword.

JavaScript strings are Lean String, object ids and HTTP status codes are
Nat, timestamps are Int (milliseconds since the epoch, as Date.now()),
JSON values are the Json inductive below, and a missing/undefined value is
Option.none.  Persistence is modelled as an explicit event trace: each
webhook.save() becomes an Event.save carrying the record as saved, and the
outbound axios POST becomes an Event.transmit carrying the request, so the
order of persistence relative to transmission is observable.
-/

/-- JSON values, the model of plain JavaScript objects held in webhook and
transaction payload fields. -/
inductive Json where
  | null : Json
  | bool : Bool → Json
  | num : Int → Json
  | str : String → Json
  | arr : List Json → Json
  | obj : List (String × Json) → Json
deriving Repr

/-- Escape a string body the way JSON.stringify does for the characters the
model can contain (backslash and double quote). -/
def jsonEscape (s : String) : String :=
  s.foldl (fun acc c =>
    if c = '\\' then acc ++ "\\\\"
    else if c = '\"' then acc ++ "\\\""
    else acc.push c) ""

mutual

/-- Model of JSON.stringify: the canonical serialization of a payload, used
both for the HMAC input and (by axios) for the transmitted request body. -/
def Json.stringify : Json → String
  | .null => "null"
  | .bool true => "true"
  | .bool false => "false"
  | .num n => toString n
  | .str s => "\"" ++ jsonEscape s ++ "\""
  | .arr xs => "[" ++ Json.stringifyList xs ++ "]"
  | .obj fs => "\x7b" ++ Json.stringifyFields fs ++ "\x7d"

/-- Comma-separated serialization of a JSON array body. -/
def Json.stringifyList : List Json → String
  | [] => ""
  | [x] => Json.stringify x
  | x :: xs => Json.stringify x ++ "," ++ Json.stringifyList xs

/-- Comma-separated serialization of a JSON object body. -/
def Json.stringifyFields : List (String × Json) → String
  | [] => ""
  | [(k, v)] => "\"" ++ jsonEscape k ++ "\":" ++ Json.stringify v
  | (k, v) :: fs =>
      "\"" ++ jsonEscape k ++ "\":" ++ Json.stringify v ++ "," ++ Json.stringifyFields fs

end

/-- Property access obj.k on a JavaScript value: the field when the value is
an object carrying it, undefined (none) otherwise. -/
def Json.get : Json → String → Option Json
  | .obj fs, k => fs.lookup k
  | _, _ => none

/-- JavaScript truthiness of a JSON value (used by guards such as
`if (receiptItem && receiptItem.Value)`). -/
def Json.truthy : Json → Bool
  | .null => false
  | .bool b => b
  | .num n => n != 0
  | .str s => s != ""
  | .arr _ => true
  | .obj _ => true

/-- The declared status enumeration of the webhook schema
(src/models/webhook.js, the enum of the status path). -/
def webhookStatusEnum : List String := ["PENDING", "SENT", "FAILED", "RETRYING"]

/-- One webhook (Notification) record, after src/models/webhook.js plus the
fields written by the service.  The status is a String exactly as in the
code, because the service assigns status values outside the schema enum. -/
structure Webhook where
  id : Nat
  userId : Nat
  transactionId : Nat
  type : String
  status : String
  payload : Json
  destination : String
  attempts : Nat
  lastAttempt : Option Int
  response : Option (Nat × String)
  errorMessage : Option String
deriving Repr

/-- The slice of the user record the webhook service reads:
user.webhookConfig.secret and user.webhookConfig.endpoints.stkCallback.
A missing user document, a missing webhookConfig and a missing field all
collapse to none at the use sites. -/
structure User where
  id : Nat
  secret : Option String
  stkEndpoint : Option String
deriving Repr

/-- The guard `!user || !user.webhookConfig || !user.webhookConfig.secret`
of sendWebhook: the secret when the user exists and carries a truthy
(non-empty) secret, none otherwise. -/
def secretOf : Option User → Option String
  | none => none
  | some u =>
    match u.secret with
    | none => none
    | some s => if s = "" then none else some s

/-- Outcome of the axios POST: a resolved 2xx response (status and body) or
a rejection (non-2xx response, connection failure or timeout), which axios
surfaces as a thrown error carrying a message. -/
inductive HttpOutcome where
  | success : Nat → String → HttpOutcome
  | failure : String → HttpOutcome
deriving Repr

/-- The outbound HTTP POST built by sendWebhook: destination URL, the three
delivery headers, the serialized body and the axios timeout. -/
structure HttpRequest where
  url : String
  signature : String
  timestampHeader : Int
  webhookIdHeader : Nat
  body : String
  timeoutMs : Nat
deriving Repr

/-- Observable effects of the webhook service, in order: each
webhook.save() and the axios transmission. -/
inductive Event where
  | save : Webhook → Event
  | transmit : HttpRequest → Event
deriving Repr

/-- The record state after replaying the saves of a trace on top of a
starting record: the state a concurrent reader (or the catch block's
re-fetch) observes at the end of the trace. -/
def lastSave (d : Webhook) : List Event → Webhook
  | [] => d
  | .save w :: rest => lastSave w rest
  | .transmit _ :: rest => lastSave d rest

/-- Whether a trace contains a transmission. -/
def hasTransmit (t : List Event) : Bool :=
  t.any fun e => match e with | .transmit _ => true | .save _ => false

/-- maxRetries constant of sendWebhook. -/
def maxRetries : Nat := 5

/-- The retry cool-down of retryFailedWebhooks: 5 * 60 * 1000 milliseconds. -/
def backoffFloorMs : Int := 5 * 60 * 1000

/-- The status the catch block of sendWebhook leaves on the record given
the attempt counter at failure time: FAILED, escalated to FAILED_PERMANENT
when the counter has reached maxRetries. -/
def failureStatus (attempts : Nat) : String :=
  if attempts ≥ maxRetries then "FAILED_PERMANENT" else "FAILED"

/-- 32-bit truncation, the word size of SHA-256 arithmetic. -/
def w32 (n : Nat) : Nat := n % 4294967296

/-- 32-bit modular addition. -/
def add32 (a b : Nat) : Nat := w32 (a + b)

/-- 32-bit right rotation. -/
def rotr32 (n x : Nat) : Nat := w32 ((x >>> n) ||| (x <<< (32 - n)))

/-- SHA-256 big sigma 0. -/
def bSig0 (x : Nat) : Nat := rotr32 2 x ^^^ rotr32 13 x ^^^ rotr32 22 x

/-- SHA-256 big sigma 1. -/
def bSig1 (x : Nat) : Nat := rotr32 6 x ^^^ rotr32 11 x ^^^ rotr32 25 x

/-- SHA-256 small sigma 0. -/
def sSig0 (x : Nat) : Nat := rotr32 7 x ^^^ rotr32 18 x ^^^ (x >>> 3)

/-- SHA-256 small sigma 1. -/
def sSig1 (x : Nat) : Nat := rotr32 17 x ^^^ rotr32 19 x ^^^ (x >>> 10)

/-- SHA-256 choice function. -/
def shaCh (e f g : Nat) : Nat := (e &&& f) ^^^ ((e ^^^ 4294967295) &&& g)

/-- SHA-256 majority function. -/
def shaMaj (a b c : Nat) : Nat := (a &&& b) ^^^ (a &&& c) ^^^ (b &&& c)

/-- SHA-256 round constants. -/
def shaK : List Nat :=
  [1116352408, 1899447441, 3049323471, 3921009573, 961987163,
   1508970993, 2453635748, 2870763221, 3624381080, 310598401,
   607225278, 1426881987, 1925078388, 2162078206, 2614888103,
   3248222580, 3835390401, 4022224774, 264347078, 604807628,
   770255983, 1249150122, 1555081692, 1996064986, 2554220882,
   2821834349, 2952996808, 3210313671, 3336571891, 3584528711,
   113926993, 338241895, 666307205, 773529912, 1294757372,
   1396182291, 1695183700, 1986661051, 2177026350, 2456956037,
   2730485921, 2820302411, 3259730800, 3345764771, 3516065817,
   3600352804, 4094571909, 275423344, 430227734, 506948616,
   659060556, 883997877, 958139571, 1322822218, 1537002063,
   1747873779, 1955562222, 2024104815, 2227730452, 2361852424,
   2428436474, 2756734187, 3204031479, 3329325298]

/-- SHA-256 initial hash state. -/
def shaH0 : List Nat :=
  [1779033703, 3144134277, 1013904242, 2773480762,
   1359893119, 2600822924, 528734635, 1541459225]

/-- Merkle–Damgard padding: append 0x80, zero fill to 56 mod 64, then the
big-endian 64-bit bit length. -/
def shaPad (msg : List Nat) : List Nat :=
  let padLen := (64 - ((msg.length + 9) % 64)) % 64
  let bitLen := msg.length * 8
  msg ++ [0x80] ++ List.replicate padLen 0 ++
    ([56, 48, 40, 32, 24, 16, 8, 0].map fun i => (bitLen >>> i) % 256)

/-- Group a byte list into big-endian 32-bit words. -/
def bytesToWords : List Nat → List Nat
  | b0 :: b1 :: b2 :: b3 :: rest =>
      (((b0 * 256 + b1) * 256 + b2) * 256 + b3) :: bytesToWords rest
  | _ => []

/-- Big-endian bytes of a 32-bit word. -/
def wordBytes (w : Nat) : List Nat :=
  [(w >>> 24) % 256, (w >>> 16) % 256, (w >>> 8) % 256, w % 256]

/-- Split a byte list into 64-byte blocks. -/
def toBlocks (bs : List Nat) : List (List Nat) :=
  if h : bs = [] then []
  else bs.take 64 :: toBlocks (bs.drop 64)
termination_by bs.length
decreasing_by
  have hpos : 0 < bs.length := List.length_pos.mpr h
  simp only [List.length_drop]
  omega

/-- Extend the 16 block words by n schedule words. -/
def extendW : Nat → List Nat → List Nat
  | 0, ws => ws
  | n + 1, ws =>
      let len := ws.length
      let t := add32 (add32 (sSig1 (ws.getD (len - 2) 0)) (ws.getD (len - 7) 0))
                     (add32 (sSig0 (ws.getD (len - 15) 0)) (ws.getD (len - 16) 0))
      extendW n (ws ++ [t])

/-- One SHA-256 compression round. -/
def shaRound (st : Nat × Nat × Nat × Nat × Nat × Nat × Nat × Nat) (kw : Nat × Nat) :
    Nat × Nat × Nat × Nat × Nat × Nat × Nat × Nat :=
  let (a, b, c, d, e, f, g, h) := st
  let t1 := add32 h (add32 (bSig1 e) (add32 (shaCh e f g) (add32 kw.1 kw.2)))
  let t2 := add32 (bSig0 a) (shaMaj a b c)
  (add32 t1 t2, a, b, c, add32 d t1, e, f, g)

/-- Compress one 64-byte block into the running hash state. -/
def shaBlock (hst : List Nat) (block : List Nat) : List Nat :=
  let ws := extendW 48 (bytesToWords block)
  let init := (hst.getD 0 0, hst.getD 1 0, hst.getD 2 0, hst.getD 3 0,
               hst.getD 4 0, hst.getD 5 0, hst.getD 6 0, hst.getD 7 0)
  let (a, b, c, d, e, f, g, h) := (shaK.zip ws).foldl shaRound init
  [add32 (hst.getD 0 0) a, add32 (hst.getD 1 0) b, add32 (hst.getD 2 0) c,
   add32 (hst.getD 3 0) d, add32 (hst.getD 4 0) e, add32 (hst.getD 5 0) f,
   add32 (hst.getD 6 0) g, add32 (hst.getD 7 0) h]

/-- SHA-256 of a byte list, as 32 bytes. -/
def sha256 (msg : List Nat) : List Nat :=
  (((toBlocks (shaPad msg)).foldl shaBlock shaH0).map wordBytes).flatten

/-- HMAC-SHA256 over byte lists, the construction of
crypto.createHmac applied by sendWebhook. -/
def hmacSha256 (key msg : List Nat) : List Nat :=
  let key := if key.length > 64 then sha256 key else key
  let key := key ++ List.replicate (64 - key.length) 0
  let ipad := key.map fun b => b ^^^ 0x36
  let opad := key.map fun b => b ^^^ 0x5c
  sha256 (opad ++ sha256 (ipad ++ msg))

/-- UTF-8 bytes of a string, the byte sequence crypto hashes for a string
input. -/
def utf8Bytes (s : String) : List Nat :=
  s.toUTF8.toList.map UInt8.toNat

/-- Lowercase hex digit. -/
def hexDigit (n : Nat) : Char :=
  if n < 10 then Char.ofNat (48 + n) else Char.ofNat (87 + n)

/-- Lowercase hex encoding of a byte list, as digest applied with the hex
argument produces. -/
def toHex (bs : List Nat) : String :=
  bs.foldl (fun acc b => (acc.push (hexDigit (b / 16 % 16))).push (hexDigit (b % 16))) ""

/-- The Signer: hex-encoded HMAC-SHA256 of a message string under a secret
string, as computed in sendWebhook via crypto.createHmac, update and
digest. -/
def hmacSha256Hex (secret msg : String) : String :=
  toHex (hmacSha256 (utf8Bytes secret) (utf8Bytes msg))

/-- The pre-flight record update of sendWebhook: increment the attempt
counter, stamp the attempt time, mark the record PENDING (in-flight). -/
def attemptUpdate (w : Webhook) (now : Int) : Webhook :=
  { w with attempts := w.attempts + 1, lastAttempt := some now, status := "PENDING" }

/-- The record update sendWebhook applies when the user or its webhook
secret is missing. -/
def webhookConfigFailure (w : Webhook) : Webhook :=
  { w with status := "FAILED", errorMessage := some "Invalid webhook configuration" }

/-- The axios POST sendWebhook issues: the signature is the HMAC of the
serialized payload, and the body is the payload as axios serializes it
(JSON.stringify of the same object). -/
def buildRequest (w : Webhook) (secret : String) (now : Int) : HttpRequest :=
  { url := w.destination
    signature := hmacSha256Hex secret (Json.stringify w.payload)
    timestampHeader := now
    webhookIdHeader := w.id
    body := Json.stringify w.payload
    timeoutMs := 10000 }

/-- The try block of sendWebhook.  Normal return yields the event trace;
the thrown axios rejection yields the trace performed so far together with
the error message escaping to the catch block. -/
def sendWebhookTry (w? : Option Webhook) (user? : Option User) (now : Int)
    (outcome : HttpOutcome) : Except (List Event × String) (List Event) :=
  match w? with
  | none => .ok []
  | some w =>
    if w.status = "SENT" then .ok []
    else
      match secretOf user? with
      | none => .ok [.save (webhookConfigFailure w)]
      | some secret =>
        let w1 := attemptUpdate w now
        let req := buildRequest w secret now
        match outcome with
        | .success st body =>
            .ok [.save w1, .transmit req,
                 .save { w1 with status := "SENT", response := some (st, body) }]
        | .failure msg => .error ([.save w1, .transmit req], msg)

/-- The catch block of sendWebhook applied to the re-fetched record: set
FAILED and the error message, escalated to FAILED_PERMANENT when the
attempt counter has reached maxRetries. -/
def catchUpdate (current : Webhook) (msg : String) : Webhook :=
  { current with status := failureStatus current.attempts, errorMessage := some msg }

/-- sendWebhook as an Except-typed computation: the whole body runs inside
try/catch, the catch re-fetches the record (the last saved state) and
persists the failure, so the function always resolves.  Storage itself is
assumed available (the inner try/catch around the failure save only guards
storage errors). -/
def sendWebhookChecked (w? : Option Webhook) (user? : Option User) (now : Int)
    (outcome : HttpOutcome) : Except String (List Event) :=
  match sendWebhookTry w? user? now outcome with
  | .ok t => .ok t
  | .error (t, msg) =>
      match w? with
      | none => .ok t
      | some w => .ok (t ++ [.save (catchUpdate (lastSave w t) msg)])

/-- The event trace of one sendWebhook call. -/
def sendWebhook (w? : Option Webhook) (user? : Option User) (now : Int)
    (outcome : HttpOutcome) : List Event :=
  match sendWebhookChecked w? user? now outcome with
  | .ok t => t
  | .error _ => []

/-- createWebhook: the record it constructs and saves (status PENDING,
attempts 0) before scheduling an immediate sendWebhook. -/
def createWebhook (id userId transactionId : Nat) (eventType destination : String)
    (payload : Json) : Webhook :=
  { id := id, userId := userId, transactionId := transactionId, type := eventType,
    status := "PENDING", payload := payload, destination := destination,
    attempts := 0, lastAttempt := none, response := none, errorMessage := none }

/-- The Mongo query of retryFailedWebhooks on one document: status FAILED,
attempts below maxRetries, lastAttempt strictly older than the cool-down
boundary.  A document without a lastAttempt field does not match the
comparison operator. -/
def retryQuery (now : Int) (w : Webhook) : Bool :=
  w.status == "FAILED" && w.attempts < maxRetries &&
    (match w.lastAttempt with
     | some t => decide (t < now - backoffFloorMs)
     | none => false)

/-- The selection of retryFailedWebhooks: the matching documents in store
order (the find has no sort clause), cut to the batch size by limit. -/
def retrySelect (store : List Webhook) (now : Int) (batchSize : Nat) : List Webhook :=
  (store.filter (retryQuery now)).take batchSize

/-- retryFailedWebhooks: fails only when the store query itself fails;
otherwise delivers each selected webhook independently (each sendWebhook
promise carries its own catch) and returns the traces and the count of
selected webhooks. -/
def retryFailedWebhooks (query : Except String (List Webhook))
    (users : Nat → Option User) (outcomes : Nat → HttpOutcome)
    (now : Int) (batchSize : Nat) :
    Except String (List (List Event) × Nat) :=
  match query with
  | .error e => .error e
  | .ok store =>
    let selected := retrySelect store now batchSize
    .ok (selected.map (fun w => sendWebhook (some w) (users w.userId) now (outcomes w.id)),
         selected.length)

/-- The record state reached from w after n consecutive sendWebhook calls
whose transmissions all fail. -/
def iterateFailedDeliveries (user? : Option User) (msg : String) (now : Int)
    (w : Webhook) : Nat → Webhook
  | 0 => w
  | n + 1 =>
      let prev := iterateFailedDeliveries user? msg now w n
      lastSave prev (sendWebhook (some prev) user? now (.failure msg))

/-- One transaction (Operation) record as read and written by the STK
handlers. -/
structure Transaction where
  id : Nat
  userId : Nat
  checkoutRequestId : String
  type : String
  status : String
  resultCode : Option Json
  resultDesc : Option Json
  callbackData : Option Json
  mpesaReference : Option Json
  mpesaTimestamp : Option String
  amount : Option Json
  phoneNumber : Option Json
deriving Repr

/-- The status update of checkStkStatus: result code 0 → COMPLETED, a code
in [1, 1032] → CANCELLED, anything else → FAILED. -/
def checkStkStatusUpdate (rc : Int) : String :=
  if rc = 0 then "COMPLETED"
  else if ([1, 1032] : List Int).contains rc then "CANCELLED"
  else "FAILED"

/-- The status assignment of the stkCallback handler: COMPLETED exactly
when the strict comparison ResultCode === 0 holds, FAILED on every other
value and on a missing ResultCode. -/
def stkCallbackStatus (rc : Option Json) : String :=
  match rc with
  | some (.num n) => if n = 0 then "COMPLETED" else "FAILED"
  | _ => "FAILED"

/-- The document filter of findOne on checkoutRequestId and type STK.
Mongoose drops an undefined query value, so a callback without a
CheckoutRequestID matches on type alone; a non-string identifier value
matches no stored string identifier. -/
def matchesCid (cid : Option Json) (t : Transaction) : Bool :=
  match cid with
  | none => true
  | some (.str s) => t.checkoutRequestId == s
  | some _ => false

/-- Transaction.findOne of the stkCallback handler: the first stored STK
transaction matching the correlation identifier. -/
def findStkTransaction (cid : Option Json) (txs : List Transaction) : Option Transaction :=
  txs.find? fun t => t.type == "STK" && matchesCid cid t

/-- JS substring on character positions. -/
def jsSubstring (s : String) (a b : Nat) : String :=
  String.mk ((s.toList.drop a).take (b - a))

/-- toString of a metadata item value.  Network callbacks carry only
numeric and string values in CallbackMetadata items; other shapes are not
modelled. -/
def jsValueToString : Json → String
  | .num n => toString n
  | .str s => s
  | _ => ""

/-- The YYYYMMDDHHMMSS reformatting of the TransactionDate item into the
ISO-style string handed to the Date constructor. -/
def formatMpesaDate (dateStr : String) : String :=
  jsSubstring dateStr 0 4 ++ "-" ++ jsSubstring dateStr 4 6 ++ "-" ++
    jsSubstring dateStr 6 8 ++ "T" ++ jsSubstring dateStr 8 10 ++ ":" ++
    jsSubstring dateStr 10 12 ++ ":" ++ jsSubstring dateStr 12 14

/-- The CallbackMetadata.Item list when present (the guard requires both
CallbackMetadata and Item to be truthy; a non-array Item is not
modelled). -/
def metadataItems (stk : Json) : List Json :=
  match stk.get "CallbackMetadata" with
  | some md =>
    match md.get "Item" with
    | some (.arr xs) => xs
    | _ => []
  | none => []

/-- The completed-path metadata extraction: scan the items for
MpesaReceiptNumber and TransactionDate by name; a missing key or falsy
value leaves the transaction field unchanged. -/
def applyMetadata (stk : Json) (t : Transaction) : Transaction :=
  let items := metadataItems stk
  let t1 :=
    match items.find? (fun it =>
        match it.get "Name" with
        | some (.str s) => s == "MpesaReceiptNumber"
        | _ => false) with
    | some item =>
      match item.get "Value" with
      | some v => if v.truthy then { t with mpesaReference := some v } else t
      | none => t
    | none => t
  match items.find? (fun it =>
      match it.get "Name" with
      | some (.str s) => s == "TransactionDate"
      | _ => false) with
  | some item =>
    match item.get "Value" with
    | some v =>
        if v.truthy then
          { t1 with mpesaTimestamp := some (formatMpesaDate (jsValueToString v)) }
        else t1
    | none => t1
  | none => t1

/-- The truthiness guard on user.webhookConfig.endpoints.stkCallback: the
registered endpoint when present and non-empty. -/
def stkEndpointOf (u : User) : Option String :=
  match u.stkEndpoint with
  | none => none
  | some s => if s = "" then none else some s

/-- Append a field only when the value is defined, as JSON.stringify drops
undefined object members. -/
def optField (k : String) (v : Option Json) : List (String × Json) :=
  match v with
  | some j => [(k, j)]
  | none => []

/-- The payload object of the webhook record the stkCallback handler
constructs from the updated transaction. -/
def stkWebhookPayload (t : Transaction) (cid : Option Json) : Json :=
  .obj ([("transactionId", .num (t.id : Int))] ++
    optField "checkoutRequestId" cid ++
    optField "resultCode" t.resultCode ++
    optField "resultDesc" t.resultDesc ++
    optField "mpesaReference" t.mpesaReference ++
    optField "amount" t.amount ++
    optField "phoneNumber" t.phoneNumber ++
    [("status", .str t.status)] ++
    optField "timestamp" (t.mpesaTimestamp.map .str))

/-- The update the stkCallback handler applies to the resolved
transaction: record the raw callback, result code and description, then
set the status from the result code (with metadata extraction on the
completed path). -/
def stkResolvedUpdate (payload stk : Json) (t : Transaction) : Transaction :=
  let rc := stk.get "ResultCode"
  let t1 := { t with callbackData := some payload, resultCode := rc,
                     resultDesc := stk.get "ResultDesc" }
  if stkCallbackStatus rc = "COMPLETED" then
    applyMetadata stk { t1 with status := "COMPLETED" }
  else { t1 with status := "FAILED" }

/-- The acknowledgement body every path of the stkCallback handler
returns. -/
def successAck : Json := .obj [("success", .bool true)]

/-- The observable result of one stkCallback invocation: the transaction
store after the handler, the transaction record it saved (if any), the
webhook records it created, and the acknowledgement returned upstream. -/
structure StkCallbackResult where
  txs : List Transaction
  savedTx : Option Transaction
  newWebhooks : List Webhook
  ack : Json
deriving Repr

/-- The stkCallback handler.  A payload on which the property navigation
Body.stkCallback.CheckoutRequestID throws lands in the catch block, which
also acknowledges with success and mutates nothing.  The delivery of the
created webhook is dispatched without awaiting, so it does not contribute
to the result. -/
def stkCallback (payload : Json) (txs : List Transaction) (users : List User)
    (freshId : Nat) : StkCallbackResult :=
  match payload.get "Body" with
  | none => ⟨txs, none, [], successAck⟩
  | some body =>
  match body.get "stkCallback" with
  | none => ⟨txs, none, [], successAck⟩
  | some stk =>
    let cid := stk.get "CheckoutRequestID"
    match findStkTransaction cid txs with
    | none => ⟨txs, none, [], successAck⟩
    | some t =>
      let t2 := stkResolvedUpdate payload stk t
      let txs2 := txs.map fun x => if x.id = t.id then t2 else x
      match users.find? (fun u => u.id == t.userId) with
      | some u =>
        match stkEndpointOf u with
        | some url =>
          let wh : Webhook :=
            { id := freshId, userId := t.userId, transactionId := t.id,
              type := "STK", status := "PENDING",
              payload := stkWebhookPayload t2 cid, destination := url,
              attempts := 0, lastAttempt := none, response := none,
              errorMessage := none }
          ⟨txs2, some t2, [wh], successAck⟩
        | none => ⟨txs2, some t2, [], successAck⟩
      | none => ⟨txs2, some t2, [], successAck⟩

/-- One user record as the auth handlers read it. -/
structure AuthUser where
  id : Nat
  email : String
  resetPasswordToken : Option String
  resetPasswordExpires : Option Int
deriving Repr, DecidableEq

/-- The uniform message of forgotPassword. -/
def resetMessage : String :=
  "If your email is registered, you will receive a password reset link"

/-- A handler response body of the auth handlers. -/
structure AuthResponse where
  success : Bool
  message : String
deriving Repr, DecidableEq

/-- The forgotPassword handler: looks the email up; on a miss answers the
uniform message without touching the store, on a hit stamps a reset token
and a one-hour expiry and answers the same uniform message.  The random
reset token is an input of the model. -/
def forgotPassword (users : List AuthUser) (email resetToken : String)
    (now : Int) : List AuthUser × AuthResponse :=
  match users.find? (fun u => u.email == email) with
  | none => (users, ⟨true, resetMessage⟩)
  | some u =>
    let u2 := { u with resetPasswordToken := some resetToken,
                       resetPasswordExpires := some (now + 3600000) }
    (users.map fun x => if x.id = u.id then u2 else x, ⟨true, resetMessage⟩)

/-- Correlation identifier navigation of the callback payload
(Body.stkCallback.CheckoutRequestID), undefined when any step is
missing. -/
def cidOf (payload : Json) : Option Json :=
  ((payload.get "Body").bind (·.get "stkCallback")).bind (·.get "CheckoutRequestID")

/-- Result code navigation of the callback payload
(Body.stkCallback.ResultCode). -/
def rcOf (payload : Json) : Option Json :=
  ((payload.get "Body").bind (·.get "stkCallback")).bind (·.get "ResultCode")

/-- A concrete webhook record for instantiating theorems. -/
def sampleWebhook : Webhook :=
  { id := 1, userId := 2, transactionId := 5, type := "STK", status := "PENDING",
    payload := Json.obj [("amount", Json.num 10), ("status", Json.str "COMPLETED")],
    destination := "https://client.example/hook",
    attempts := 0, lastAttempt := none, response := none, errorMessage := none }

/-- A concrete user record with a configured secret and endpoint. -/
def sampleUser : User :=
  { id := 2, secret := some "topsecret", stkEndpoint := some "https://client.example/hook" }

/-- A concrete stored STK transaction. -/
def sampleTransaction : Transaction :=
  { id := 5, userId := 2, checkoutRequestId := "ws_CO_1", type := "STK",
    status := "PENDING", resultCode := none, resultDesc := none,
    callbackData := none, mpesaReference := none, mpesaTimestamp := none,
    amount := some (Json.num 10), phoneNumber := some (Json.str "254700000001") }

/-- A concrete raw STK callback body carrying a given correlation
identifier and result code. -/
def mkStkPayload (cid : String) (rc : Int) : Json :=
  .obj [("Body", .obj [("stkCallback", .obj
    [("CheckoutRequestID", .str cid), ("ResultCode", .num rc),
     ("ResultDesc", .str "desc")])])]

/-- Unfolding of sendWebhook once the terminal and secret guards pass: the
pre-flight save, the transmission, then the outcome save (catch save on
failure). -/
theorem sendWebhook_delivery_shape (w : Webhook) (u? : Option User) (s : String)
    (now : Int) (o : HttpOutcome) (hw : w.status ≠ "SENT") (hs : secretOf u? = some s) :
    sendWebhook (some w) u? now o =
      .save (attemptUpdate w now) :: .transmit (buildRequest w s now) ::
      (match o with
       | .success st body =>
           [.save { attemptUpdate w now with status := "SENT", response := some (st, body) }]
       | .failure msg => [.save (catchUpdate (attemptUpdate w now) msg)]) := by
  cases o <;>
    simp [sendWebhook, sendWebhookChecked, sendWebhookTry, hs, hw, lastSave]

/-- The attempt counter never decreases across a sendWebhook call. -/
theorem sendWebhook_attempts_mono (w : Webhook) (u? : Option User) (now : Int)
    (o : HttpOutcome) :
    w.attempts ≤ (lastSave w (sendWebhook (some w) u? now o)).attempts := by
  by_cases hw : w.status = "SENT"
  · simp [sendWebhook, sendWebhookChecked, sendWebhookTry, hw, lastSave]
  · cases hsec : secretOf u? with
    | none =>
        simp [sendWebhook, sendWebhookChecked, sendWebhookTry, hw, hsec, lastSave,
              webhookConfigFailure]
    | some s =>
        rw [sendWebhook_delivery_shape w u? s now o hw hsec]
        cases o <;> simp [lastSave, attemptUpdate, catchUpdate]

/-- C1 (counterexample): a notification in FAILED_PERMANENT status is not
terminal for sendWebhook — the guard checks only SENT, so deliver on a
failed-permanent record transmits again and bumps the attempt counter from
0 to 1, refuting the claimed no-op. -/
theorem C1_counterexample :
    hasTransmit (sendWebhook (some { sampleWebhook with status := "FAILED_PERMANENT" })
      (some sampleUser) 7 (.success 200 "ok")) = true
    ∧ (lastSave { sampleWebhook with status := "FAILED_PERMANENT" }
        (sendWebhook (some { sampleWebhook with status := "FAILED_PERMANENT" })
          (some sampleUser) 7 (.success 200 "ok"))).attempts = 1
    ∧ ({ sampleWebhook with status := "FAILED_PERMANENT" } : Webhook).attempts = 0 :=
  ⟨rfl, rfl, rfl⟩

/-- C1 (amended): terminal finality holds for status SENT only — a deliver
call on a sent notification performs no save and no transmission, leaving
the record (attempt counter included) unchanged. -/
theorem C1_amended (w : Webhook) (u? : Option User) (now : Int) (o : HttpOutcome)
    (h : w.status = "SENT") :
    sendWebhook (some w) u? now o = [] := by
  simp [sendWebhook, sendWebhookChecked, sendWebhookTry, h]

/-- C1 witness: the amended no-op at a concrete sent record. -/
theorem C1_witness :
    sendWebhook (some { sampleWebhook with status := "SENT" }) (some sampleUser) 7
      (.failure "boom") = [] :=
  C1_amended { sampleWebhook with status := "SENT" } (some sampleUser) 7
    (.failure "boom") rfl

/-- C2 (counterexample): with the owning user lacking a signing secret,
deliver leaves status FAILED — not FAILED_PERMANENT — and the record (with
a stamped earlier attempt) still matches the retry query, so it is retried
afterwards, refuting the claimed permanent escalation. -/
theorem C2_counterexample :
    (lastSave { sampleWebhook with attempts := 2, lastAttempt := some 0 }
      (sendWebhook (some { sampleWebhook with attempts := 2, lastAttempt := some 0 })
        (some { sampleUser with secret := none }) 7 (.success 200 "ok"))).status = "FAILED"
    ∧ "FAILED" ≠ "FAILED_PERMANENT"
    ∧ retryQuery 1000000
        (lastSave { sampleWebhook with attempts := 2, lastAttempt := some 0 }
          (sendWebhook (some { sampleWebhook with attempts := 2, lastAttempt := some 0 })
            (some { sampleUser with secret := none }) 7 (.success 200 "ok"))) = true :=
  ⟨rfl, by decide, rfl⟩

/-- C2 (amended): a missing signing secret makes deliver set status FAILED
with error message Invalid webhook configuration and return without any
transmission and without touching the attempt counter; the record is not
escalated to failed-permanent, so it remains subject to the retry sweep. -/
theorem C2_amended (w : Webhook) (u? : Option User) (now : Int) (o : HttpOutcome)
    (hw : w.status ≠ "SENT") (hs : secretOf u? = none) :
    sendWebhook (some w) u? now o = [.save (webhookConfigFailure w)]
    ∧ (webhookConfigFailure w).status = "FAILED"
    ∧ (webhookConfigFailure w).errorMessage = some "Invalid webhook configuration"
    ∧ (webhookConfigFailure w).attempts = w.attempts
    ∧ hasTransmit (sendWebhook (some w) u? now o) = false := by
  refine ⟨?_, rfl, rfl, rfl, ?_⟩ <;>
    simp [sendWebhook, sendWebhookChecked, sendWebhookTry, hw, hs, hasTransmit,
          webhookConfigFailure]

/-- C2 witness: the amended behaviour at a concrete record and secretless
user. -/
theorem C2_witness :
    sendWebhook (some sampleWebhook) (some { sampleUser with secret := none }) 7
        (.success 200 "ok") = [.save (webhookConfigFailure sampleWebhook)]
    ∧ (webhookConfigFailure sampleWebhook).status = "FAILED"
    ∧ (webhookConfigFailure sampleWebhook).errorMessage = some "Invalid webhook configuration"
    ∧ (webhookConfigFailure sampleWebhook).attempts = sampleWebhook.attempts
    ∧ hasTransmit (sendWebhook (some sampleWebhook)
        (some { sampleUser with secret := none }) 7 (.success 200 "ok")) = false :=
  C2_amended sampleWebhook (some { sampleUser with secret := none }) 7
    (.success 200 "ok") (by decide) rfl

/-- Both failure statuses differ from SENT, so a failed record passes the
terminal guard of the next deliver call. -/
theorem failureStatus_ne_sent (n : Nat) : failureStatus n ≠ "SENT" := by
  unfold failureStatus
  split <;> decide

/-- The record state after one sendWebhook call whose transmission fails:
attempt counter bumped, attempt time stamped, status FAILED (or
FAILED_PERMANENT at the ceiling), error message recorded. -/
theorem sendWebhook_failure_lastSave (w : Webhook) (u? : Option User) (s msg : String)
    (now : Int) (hw : w.status ≠ "SENT") (hs : secretOf u? = some s) :
    lastSave w (sendWebhook (some w) u? now (.failure msg)) =
      { w with attempts := w.attempts + 1, lastAttempt := some now,
               status := failureStatus (w.attempts + 1), errorMessage := some msg } := by
  rw [sendWebhook_delivery_shape w u? s now (.failure msg) hw hs]
  simp [lastSave, catchUpdate, attemptUpdate]

/-- Closed form of k consecutive failed deliveries from a fresh record. -/
theorem iterateFailedDeliveries_closed (u? : Option User) (s msg : String) (now : Int)
    (w : Webhook) (hs : secretOf u? = some s) (h0 : w.status = "PENDING")
    (ha : w.attempts = 0) :
    ∀ k, 1 ≤ k →
      iterateFailedDeliveries u? msg now w k =
        { w with attempts := k, lastAttempt := some now,
                 status := failureStatus k, errorMessage := some msg } := by
  intro k
  induction k with
  | zero => omega
  | succ n ih =>
    intro _
    have step : iterateFailedDeliveries u? msg now w (n + 1) =
        lastSave (iterateFailedDeliveries u? msg now w n)
          (sendWebhook (some (iterateFailedDeliveries u? msg now w n)) u? now
            (.failure msg)) := rfl
    by_cases hn : n = 0
    · subst hn
      rw [step]
      show lastSave (iterateFailedDeliveries u? msg now w 0) _ = _
      have h0' : (iterateFailedDeliveries u? msg now w 0) = w := rfl
      rw [h0', sendWebhook_failure_lastSave w u? s msg now (by rw [h0]; decide) hs, ha]
    · have ih' := ih (by omega)
      rw [step, ih']
      rw [sendWebhook_failure_lastSave _ u? s msg now (failureStatus_ne_sent n) hs]

/-- C3: starting from a fresh notification, k consecutive failed
deliveries leave status FAILED with attempts = k for every k strictly
below the ceiling of 5, and exactly the 5th failure sets FAILED_PERMANENT
with attempts = 5 — yet FAILED_PERMANENT is not a member of the status
enumeration declared by the webhook schema, so the escalated status the
service assigns is outside the model declaration. -/
theorem C3_retry_ceiling (w : Webhook) (u? : Option User) (s msg : String) (now : Int)
    (hs : secretOf u? = some s) (h0 : w.status = "PENDING") (ha : w.attempts = 0) :
    (∀ k, 1 ≤ k → k < maxRetries →
      (iterateFailedDeliveries u? msg now w k).status = "FAILED"
      ∧ (iterateFailedDeliveries u? msg now w k).attempts = k)
    ∧ (iterateFailedDeliveries u? msg now w maxRetries).status = "FAILED_PERMANENT"
    ∧ (iterateFailedDeliveries u? msg now w maxRetries).attempts = maxRetries
    ∧ "FAILED_PERMANENT" ∉ webhookStatusEnum := by
  refine ⟨?_, ?_, ?_, by decide⟩
  · intro k hk1 hk5
    rw [iterateFailedDeliveries_closed u? s msg now w hs h0 ha k hk1]
    refine ⟨?_, rfl⟩
    show failureStatus k = "FAILED"
    unfold failureStatus
    rw [if_neg (by omega)]
  · rw [iterateFailedDeliveries_closed u? s msg now w hs h0 ha maxRetries (by decide)]
    show failureStatus maxRetries = "FAILED_PERMANENT"
    decide
  · rw [iterateFailedDeliveries_closed u? s msg now w hs h0 ha maxRetries (by decide)]

/-- C3 witness: the 5th consecutive failure of a concrete fresh record
yields the out-of-enumeration FAILED_PERMANENT status. -/
theorem C3_witness :
    (iterateFailedDeliveries (some sampleUser) "boom" 7 sampleWebhook
      maxRetries).status = "FAILED_PERMANENT" :=
  (C3_retry_ceiling sampleWebhook (some sampleUser) "topsecret" "boom" 7 rfl rfl
    rfl).2.1

/-- A stored failed webhook with the oldest last attempt. -/
def olderFailedWebhook : Webhook :=
  { sampleWebhook with id := 10, status := "FAILED", attempts := 1, lastAttempt := some 0 }

/-- A stored failed webhook attempted more recently than
olderFailedWebhook. -/
def newerFailedWebhook : Webhook :=
  { sampleWebhook with
    id := 11, status := "FAILED", attempts := 1, lastAttempt := some 500000 }

/-- C4 (amended): every webhook the sweep selects has status FAILED, an
attempt count below the ceiling and a last attempt older than the 5-minute
cool-down (hence at least the backoff floor elapsed, and no webhook inside
the cool-down window is selected); at most batchSize are selected, in
store order (the query has no sort clause); and the sweep processes
exactly the selected webhooks and returns their count. -/
theorem C4_sweep_selection (store : List Webhook) (users : Nat → Option User)
    (outcomes : Nat → HttpOutcome) (now : Int) (b : Nat) :
    (∀ w ∈ retrySelect store now b,
      w.status = "FAILED" ∧ w.attempts < maxRetries ∧
      ∃ t, w.lastAttempt = some t ∧ now - t ≥ backoffFloorMs)
    ∧ (retrySelect store now b).length ≤ b
    ∧ (retrySelect store now b).Sublist store
    ∧ retryFailedWebhooks (.ok store) users outcomes now b =
        .ok ((retrySelect store now b).map
              (fun v => sendWebhook (some v) (users v.userId) now (outcomes v.id)),
             (retrySelect store now b).length) := by
  refine ⟨?_, ?_, ?_, rfl⟩
  · intro w hw
    have hw' : w ∈ store.filter (retryQuery now) := List.take_subset b _ hw
    have hq : retryQuery now w = true := (List.mem_filter.mp hw').2
    unfold retryQuery at hq
    simp only [Bool.and_eq_true, beq_iff_eq, decide_eq_true_eq] at hq
    obtain ⟨⟨hst, hatt⟩, hla⟩ := hq
    refine ⟨hst, hatt, ?_⟩
    cases hla' : w.lastAttempt with
    | none => rw [hla'] at hla; simp at hla
    | some t =>
        rw [hla'] at hla
        simp only [decide_eq_true_eq] at hla
        exact ⟨t, rfl, by omega⟩
  · exact List.length_take_le b _
  · exact (List.take_sublist b _).trans (List.filter_sublist store)

/-- C4 (counterexample): the sweep query has no sort clause, so with batch
size 1 it selects the store-order-first webhook whose last attempt
(500000) is newer, while the eligible webhook with the oldest last attempt
(0) is left out — refuting oldest-last-attempt-first selection. -/
theorem C4_counterexample :
    (retrySelect [newerFailedWebhook, olderFailedWebhook] 1000000 1).map (·.id) = [11]
    ∧ retryQuery 1000000 olderFailedWebhook = true
    ∧ newerFailedWebhook.lastAttempt = some 500000
    ∧ olderFailedWebhook.lastAttempt = some 0 := by
  refine ⟨by decide, by decide, by decide, by decide⟩

/-- C4 witness: the selection soundness applied to a concrete selected
webhook. -/
theorem C4_witness :
    olderFailedWebhook.status = "FAILED" ∧ olderFailedWebhook.attempts < maxRetries ∧
      ∃ t, olderFailedWebhook.lastAttempt = some t ∧ 1000000 - t ≥ backoffFloorMs :=
  (C4_sweep_selection [olderFailedWebhook] (fun _ => some sampleUser)
      (fun _ => HttpOutcome.failure "e") 1000000 1).1 olderFailedWebhook
    (by
      rw [show retrySelect [olderFailedWebhook] 1000000 1 = [olderFailedWebhook] from rfl]
      exact List.mem_singleton.mpr rfl)

/-- Metadata extraction never changes the transaction status. -/
theorem applyMetadata_status (stk : Json) (t : Transaction) :
    (applyMetadata stk t).status = t.status := by
  simp only [applyMetadata]
  repeat' split
  all_goals rfl

/-- The callback status derivation yields COMPLETED or FAILED, nothing
else. -/
theorem stkCallbackStatus_eq_or (rc : Option Json) :
    stkCallbackStatus rc = "COMPLETED" ∨ stkCallbackStatus rc = "FAILED" := by
  unfold stkCallbackStatus
  rcases rc with _ | j
  · right; rfl
  · cases j <;> try (right; rfl)
    rename_i n
    by_cases hn : n = 0
    · left; simp [hn]
    · right; simp [hn]

/-- The resolved-transaction update sets exactly the status derived from
the result code. -/
theorem stkResolvedUpdate_status (payload stk : Json) (t : Transaction) :
    (stkResolvedUpdate payload stk t).status =
      stkCallbackStatus (stk.get "ResultCode") := by
  simp only [stkResolvedUpdate]
  split
  · rename_i hC
    rw [applyMetadata_status]
    exact hC.symm
  · rename_i hC
    rcases stkCallbackStatus_eq_or (stk.get "ResultCode") with h | h
    · exact absurd h hC
    · exact h.symm

/-- Every branch of the stkCallback handler — thrown navigation, unmatched
correlation, matched with or without a registered endpoint — returns the
success acknowledgement. -/
theorem stkCallback_ack (p : Json) (ts : List Transaction) (us : List User) (i : Nat) :
    (stkCallback p ts us i).ack = successAck := by
  simp only [stkCallback]
  repeat' split
  all_goals rfl

/-- On a resolved callback, the handler saves exactly the resolved
transaction update, whatever the webhook subscription state. -/
theorem stkCallback_savedTx (payload : Json) (txs : List Transaction)
    (users : List User) (fid : Nat) (body stk : Json) (t : Transaction)
    (hb : payload.get "Body" = some body) (hsc : body.get "stkCallback" = some stk)
    (hf : findStkTransaction (stk.get "CheckoutRequestID") txs = some t) :
    (stkCallback payload txs users fid).savedTx =
      some (stkResolvedUpdate payload stk t) := by
  simp only [stkCallback, hb, hsc, hf]
  repeat' split
  all_goals rfl

/-- C5: the stkCallback handler returns the success acknowledgement on
every payload (failing navigation included), and on a payload whose
correlation identifier resolves to no stored STK transaction it leaves the
transaction store unchanged, saves nothing, and creates no webhook
record. -/
theorem C5_always_ack (payload : Json) (txs : List Transaction) (users : List User)
    (fid : Nat) (h : findStkTransaction (cidOf payload) txs = none) :
    stkCallback payload txs users fid = ⟨txs, none, [], successAck⟩
    ∧ ∀ (p : Json) (ts : List Transaction) (us : List User) (i : Nat),
        (stkCallback p ts us i).ack = successAck := by
  refine ⟨?_, stkCallback_ack⟩
  cases hb : payload.get "Body" with
  | none => simp only [stkCallback, hb]
  | some body =>
    cases hsc : body.get "stkCallback" with
    | none => simp only [stkCallback, hb, hsc]
    | some stk =>
      have hcid : stk.get "CheckoutRequestID" = cidOf payload := by
        simp [cidOf, hb, hsc]
      simp only [stkCallback, hb, hsc, hcid, h]

/-- C5 witness: a concrete callback whose identifier matches no stored
transaction is acknowledged and leaves no trace. -/
theorem C5_witness :
    stkCallback (mkStkPayload "nope" 0) [sampleTransaction] [sampleUser] 99 =
      ⟨[sampleTransaction], none, [], successAck⟩
    ∧ ∀ (p : Json) (ts : List Transaction) (us : List User) (i : Nat),
        (stkCallback p ts us i).ack = successAck :=
  C5_always_ack (mkStkPayload "nope" 0) [sampleTransaction] [sampleUser] 99 (by rfl)

/-- C6 (counterexample): a resolved callback carrying the user-cancelled
result code 1032 drives the transaction to FAILED, not CANCELLED,
refuting the claimed cancelled mapping of the callback adapter. -/
theorem C6_counterexample :
    ((stkCallback (mkStkPayload "ws_CO_1" 1032) [sampleTransaction] [sampleUser]
        99).savedTx.map (fun r => r.status)) = some "FAILED"
    ∧ "FAILED" ≠ "CANCELLED" :=
  ⟨by rfl, by decide⟩

/-- C6 (amended): on every resolved callback the handler maps result code
0 to COMPLETED and every other result code — 1 and 1032 included — to
FAILED; the 0/cancelled-set/failed mapping of the claim is the one
implemented by the separate status-query handler checkStkStatus. -/
theorem C6_result_code_mapping (n : Int) (payload body stk : Json)
    (txs : List Transaction) (users : List User) (fid : Nat) (t : Transaction)
    (hb : payload.get "Body" = some body) (hsc : body.get "stkCallback" = some stk)
    (hf : findStkTransaction (stk.get "CheckoutRequestID") txs = some t) :
    stkCallbackStatus (some (.num n)) = (if n = 0 then "COMPLETED" else "FAILED")
    ∧ checkStkStatusUpdate n =
        (if n = 0 then "COMPLETED"
         else if n = 1 ∨ n = 1032 then "CANCELLED" else "FAILED")
    ∧ ∃ r, (stkCallback payload txs users fid).savedTx = some r
        ∧ r.status = stkCallbackStatus (stk.get "ResultCode") := by
  refine ⟨rfl, ?_, ?_⟩
  · unfold checkStkStatusUpdate
    have hc : (([1, 1032] : List Int).contains n = true) ↔ (n = 1 ∨ n = 1032) := by
      simp
    rcases eq_or_ne n 0 with h0 | h0
    · simp [h0]
    · by_cases h1 : n = 1 ∨ n = 1032
      · rw [if_neg h0, if_pos (hc.mpr h1), if_neg h0, if_pos h1]
      · rw [if_neg h0, if_neg (fun hh => h1 (hc.mp hh)), if_neg h0, if_neg h1]
  · exact ⟨stkResolvedUpdate payload stk t,
      stkCallback_savedTx payload txs users fid body stk t hb hsc hf,
      stkResolvedUpdate_status payload stk t⟩

/-- C6 witness: the amended mapping applied to the concrete resolved
callback with result code 1032. -/
theorem C6_witness :
    ∃ r, (stkCallback (mkStkPayload "ws_CO_1" 1032) [sampleTransaction] [sampleUser]
        99).savedTx = some r
      ∧ r.status = stkCallbackStatus
          ((Json.obj [("CheckoutRequestID", Json.str "ws_CO_1"),
            ("ResultCode", Json.num 1032),
            ("ResultDesc", Json.str "desc")]).get "ResultCode") :=
  (C6_result_code_mapping 1032 (mkStkPayload "ws_CO_1" 1032)
    (Json.obj [("stkCallback", Json.obj [("CheckoutRequestID", Json.str "ws_CO_1"),
      ("ResultCode", Json.num 1032), ("ResultDesc", Json.str "desc")])])
    (Json.obj [("CheckoutRequestID", Json.str "ws_CO_1"),
      ("ResultCode", Json.num 1032), ("ResultDesc", Json.str "desc")])
    [sampleTransaction] [sampleUser] 99 sampleTransaction (by rfl) (by rfl)
    (by rfl)).2.2

/-- C7: once the terminal and secret guards pass, sendWebhook persists the
attempt update — counter incremented by exactly one, last-attempt time
stamped, status PENDING — strictly before the transmission event of the
trace; and across every deliver call on every record the attempt counter
never decreases. -/
theorem C7_attempt_accounting (w : Webhook) (u? : Option User) (s : String)
    (now : Int) (o : HttpOutcome) (hw : w.status ≠ "SENT")
    (hs : secretOf u? = some s) :
    (∃ rest, sendWebhook (some w) u? now o =
      .save (attemptUpdate w now) :: .transmit (buildRequest w s now) :: rest)
    ∧ (attemptUpdate w now).attempts = w.attempts + 1
    ∧ (attemptUpdate w now).lastAttempt = some now
    ∧ (attemptUpdate w now).status = "PENDING"
    ∧ ∀ (v : Webhook) (u2 : Option User) (n2 : Int) (o2 : HttpOutcome),
        v.attempts ≤ (lastSave v (sendWebhook (some v) u2 n2 o2)).attempts := by
  refine ⟨?_, rfl, rfl, rfl, sendWebhook_attempts_mono⟩
  rw [sendWebhook_delivery_shape w u? s now o hw hs]
  exact ⟨_, rfl⟩

/-- C7 witness: the pre-flight save precedes the transmission at a
concrete record, user and failing outcome. -/
theorem C7_witness :
    ∃ rest, sendWebhook (some sampleWebhook) (some sampleUser) 7 (.failure "boom") =
      .save (attemptUpdate sampleWebhook 7) ::
        .transmit (buildRequest sampleWebhook "topsecret" 7) :: rest :=
  (C7_attempt_accounting sampleWebhook (some sampleUser) "topsecret" 7
    (.failure "boom") (by decide) rfl).1

/-- C8: sendWebhook resolves on every input — the catch block records the
transport error message and the FAILED or FAILED_PERMANENT status on the
record instead of raising; retryFailedWebhooks raises exactly the storage
query error and nothing else, and otherwise delivers each selected webhook
independently and returns the count of selected webhooks. -/
theorem C8_structured_outcomes (w : Webhook) (u? : Option User) (s msg : String)
    (now : Int) (hw : w.status ≠ "SENT") (hs : secretOf u? = some s) :
    (∀ (v? : Option Webhook) (u2 : Option User) (n2 : Int) (o2 : HttpOutcome),
      ∃ t, sendWebhookChecked v? u2 n2 o2 = .ok t)
    ∧ (lastSave w (sendWebhook (some w) u? now (.failure msg))).errorMessage = some msg
    ∧ (lastSave w (sendWebhook (some w) u? now (.failure msg))).status =
        failureStatus (w.attempts + 1)
    ∧ (∀ (e : String) (users : Nat → Option User) (outcomes : Nat → HttpOutcome)
        (n2 : Int) (b : Nat),
        retryFailedWebhooks (.error e) users outcomes n2 b = .error e)
    ∧ (∀ (store : List Webhook) (users : Nat → Option User)
        (outcomes : Nat → HttpOutcome) (n2 : Int) (b : Nat),
        retryFailedWebhooks (.ok store) users outcomes n2 b =
          .ok ((retrySelect store n2 b).map
                (fun v => sendWebhook (some v) (users v.userId) n2 (outcomes v.id)),
               (retrySelect store n2 b).length)) := by
  refine ⟨?_, ?_, ?_, fun _ _ _ _ _ => rfl, fun _ _ _ _ _ => rfl⟩
  · intro v? u2 n2 o2
    unfold sendWebhookChecked
    cases h : sendWebhookTry v? u2 n2 o2 with
    | ok t => exact ⟨t, rfl⟩
    | error p =>
        obtain ⟨t, m⟩ := p
        cases v? with
        | none => exact ⟨t, rfl⟩
        | some v => exact ⟨_, rfl⟩
  · rw [sendWebhook_failure_lastSave w u? s msg now hw hs]
  · rw [sendWebhook_failure_lastSave w u? s msg now hw hs]

/-- C8 witness: a concrete transport failure is recorded on the record
rather than raised. -/
theorem C8_witness :
    (lastSave sampleWebhook
      (sendWebhook (some sampleWebhook) (some sampleUser) 7
        (.failure "connect ECONNREFUSED"))).errorMessage =
      some "connect ECONNREFUSED" :=
  (C8_structured_outcomes sampleWebhook (some sampleUser) "topsecret"
    "connect ECONNREFUSED" 7 (by decide) rfl).2.1

/-- C9: the Signer is a pure function of secret and payload bytes (two
computations agree), and in every delivery the transmitted request carries
the hex HMAC computed over exactly its own body — the single JSON
serialization of the webhook payload, serialized once and used both as the
HMAC input and as the transmitted body. -/
theorem C9_signature_determinism (w : Webhook) (u? : Option User) (s : String)
    (now : Int) (o : HttpOutcome) (hw : w.status ≠ "SENT")
    (hs : secretOf u? = some s) :
    hmacSha256Hex s (Json.stringify w.payload) =
      hmacSha256Hex s (Json.stringify w.payload)
    ∧ (buildRequest w s now).signature = hmacSha256Hex s ((buildRequest w s now).body)
    ∧ (buildRequest w s now).body = Json.stringify w.payload
    ∧ ∃ rest, sendWebhook (some w) u? now o =
        .save (attemptUpdate w now) :: .transmit (buildRequest w s now) :: rest := by
  refine ⟨rfl, rfl, rfl, ?_⟩
  rw [sendWebhook_delivery_shape w u? s now o hw hs]
  exact ⟨_, rfl⟩

/-- C9 witness: signature over exactly the transmitted body at a concrete
record and secret. -/
theorem C9_witness :
    (buildRequest sampleWebhook "topsecret" 7).signature =
      hmacSha256Hex "topsecret" ((buildRequest sampleWebhook "topsecret" 7).body) :=
  (C9_signature_determinism sampleWebhook (some sampleUser) "topsecret" 7
    (.success 200 "ok") (by decide) rfl).2.1

/-- C10: forgotPassword answers the identical success body — the uniform
registered-or-not message — for every requested email, so a registered and
an unregistered address receive the same response. -/
theorem C10_forgot_password_uniform (users : List AuthUser) (e1 e2 tok1 tok2 : String)
    (n1 n2 : Int) :
    (forgotPassword users e1 tok1 n1).2 = (forgotPassword users e2 tok2 n2).2
    ∧ (forgotPassword users e1 tok1 n1).2 = ⟨true, resetMessage⟩ := by
  have h : ∀ (es tok : String) (n : Int),
      (forgotPassword users es tok n).2 = ⟨true, resetMessage⟩ := by
    intro es tok n
    unfold forgotPassword
    cases users.find? (fun u => u.email == es) <;> rfl
  exact ⟨(h e1 tok1 n1).trans (h e2 tok2 n2).symm, h e1 tok1 n1⟩
